import Mathlib

/-!
Shallow embedding of the `ios-health-dump` daily-metric store
(`src/datamodels.py`, `src/db.py`, `src/ios_health_dump.py`) together with
theorems settling the specification claims about it.

Python floats are modelled as `Rat` (no float arithmetic occurs in the code:
metric values only pass through). Python `datetime` values are modelled by
`PyDateTime`; the stdlib helpers `datetime.isoformat` and
`datetime.fromisoformat` are modelled after their documented behaviour for
the extended ISO-8601 format, which is the only format this repository
produces or stores. Fallible Python code is modelled in the `Except PyError`
monad.
-/

/-- Python exceptions that the modelled code can raise. -/
inductive PyError where
  | attributeError
  | keyError (key : String)
  | valueError
  | typeUnrepresentable
deriving DecidableEq, Repr

/-- Model of a Python `datetime.datetime` value: calendar fields plus an
optional fixed UTC offset in minutes (`none` models a naive datetime,
`some o` models `tzinfo = timezone(timedelta(minutes := o))`). -/
structure PyDateTime where
  year : Nat
  month : Nat
  day : Nat
  hour : Nat
  minute : Nat
  second : Nat
  microsecond : Nat
  tzOffsetMinutes : Option Int
deriving DecidableEq, Repr

/-- Render a natural number, left-padded with zeros to width `w`. -/
def natPad (w n : Nat) : String :=
  let s := toString n
  String.mk (List.replicate (w - s.length) '0') ++ s

/-- Model of `datetime.isoformat()`: `YYYY-MM-DDTHH:MM:SS`, with
`.ffffff` appended only when the microsecond field is nonzero and a
`+HH:MM`/`-HH:MM` suffix only when the value is timezone-aware. -/
def PyDateTime.isoformat (d : PyDateTime) : String :=
  let datePart := natPad 4 d.year ++ "-" ++ natPad 2 d.month ++ "-" ++ natPad 2 d.day
  let timePart := natPad 2 d.hour ++ ":" ++ natPad 2 d.minute ++ ":" ++ natPad 2 d.second
  let fracPart := if d.microsecond = 0 then "" else "." ++ natPad 6 d.microsecond
  let offPart :=
    match d.tzOffsetMinutes with
    | none => ""
    | some o =>
      let a := o.natAbs
      (if o < 0 then "-" else "+") ++ natPad 2 (a / 60) ++ ":" ++ natPad 2 (a % 60)
  datePart ++ "T" ++ timePart ++ fracPart ++ offPart

/-- Value of an ASCII digit character, if it is one. -/
def digitVal (c : Char) : Option Nat :=
  if c.isDigit then some (c.toNat - 48) else none

/-- Parse exactly `w` further digit characters into the accumulator. -/
def parseFixedNat : Nat → Nat → List Char → Option (Nat × List Char)
  | 0, acc, cs => some (acc, cs)
  | w + 1, acc, c :: cs =>
    match digitVal c with
    | some d => parseFixedNat w (acc * 10 + d) cs
    | none => none
  | _ + 1, _, [] => none

/-- Parse a fractional-seconds digit run (at least one digit) into a
microsecond count; digits beyond the sixth are truncated, matching
`datetime.fromisoformat`. -/
def parseFrac (cs : List Char) : Option (Nat × List Char) :=
  let ds := cs.takeWhile (fun c => c.isDigit)
  if ds.isEmpty then none
  else
    let rest := cs.drop ds.length
    let sig := ds.take 6
    let val := sig.foldl (fun a c => a * 10 + (c.toNat - 48)) 0
    some (val * 10 ^ (6 - sig.length), rest)

/-- Parse the optional UTC-offset suffix: nothing (naive), `Z`, or
`±HH:MM`. -/
def parseOffset (cs : List Char) : Option (Option Int) :=
  match cs with
  | [] => some none
  | ['Z'] => some (some 0)
  | c :: rest =>
    if c = '+' || c = '-' then
      match parseFixedNat 2 0 rest with
      | some (hh, ':' :: rest2) =>
        match parseFixedNat 2 0 rest2 with
        | some (mm, []) =>
          if hh ≤ 23 && mm ≤ 59 then
            let total : Int := (hh * 60 + mm : Nat)
            some (some (if c = '-' then -total else total))
          else none
        | _ => none
      | _ => none
    else none

/-- Parse the time-of-day part `HH[:MM[:SS[.ffffff]]]` followed by the
optional offset. -/
def parseTimeOfDay (cs : List Char) : Option (Nat × Nat × Nat × Nat × Option Int) := do
  let (hh, r1) ← parseFixedNat 2 0 cs
  let (mm, ss, us, r4) ←
    match r1 with
    | ':' :: r1b => do
      let (mm, r2) ← parseFixedNat 2 0 r1b
      match r2 with
      | ':' :: r3 => do
        let (ss, r3b) ← parseFixedNat 2 0 r3
        match r3b with
        | '.' :: r5 => do
          let (us, r6) ← parseFrac r5
          pure (mm, ss, us, r6)
        | ',' :: r5 => do
          let (us, r6) ← parseFrac r5
          pure (mm, ss, us, r6)
        | _ => pure (mm, ss, 0, r3b)
      | _ => pure (mm, 0, 0, r2)
    | _ => pure (0, 0, 0, r1)
  let off ← parseOffset r4
  if hh ≤ 23 && mm ≤ 59 && ss ≤ 59 then pure (hh, mm, ss, us, off) else none

/-- Whether `y` is a Gregorian leap year. -/
def isLeapYear (y : Nat) : Bool :=
  (y % 4 = 0 && y % 100 ≠ 0) || y % 400 = 0

/-- Number of days in month `m` of year `y` (0 for an invalid month). -/
def daysInMonth (y m : Nat) : Nat :=
  match m with
  | 1 => 31
  | 2 => if isLeapYear y then 29 else 28
  | 3 => 31
  | 4 => 30
  | 5 => 31
  | 6 => 30
  | 7 => 31
  | 8 => 31
  | 9 => 30
  | 10 => 31
  | 11 => 30
  | 12 => 31
  | _ => 0

/-- Character-level body of `pyFromisoformat`: `YYYY-MM-DD`, optionally a
single separator character and a time-of-day with offset, with the calendar
fields validated. -/
def fromisoChars (cs : List Char) : Option PyDateTime := do
  let (y, r1) ← parseFixedNat 4 0 cs
  match r1 with
  | '-' :: r2 => do
    let (mo, r3) ← parseFixedNat 2 0 r2
    match r3 with
    | '-' :: r4 => do
      let (dy, r5) ← parseFixedNat 2 0 r4
      let dt ←
        match r5 with
        | [] => pure (PyDateTime.mk y mo dy 0 0 0 0 none)
        | _sep :: r6 => do
          let (hh, mm, ss, us, off) ← parseTimeOfDay r6
          pure (PyDateTime.mk y mo dy hh mm ss us off)
      if 1 ≤ y && y ≤ 9999 && 1 ≤ mo && mo ≤ 12 && 1 ≤ dy && dy ≤ daysInMonth y mo then
        pure dt
      else none
    | _ => none
  | _ => none

/-- Model of `datetime.fromisoformat`: raises `ValueError` on a string it
cannot parse. -/
def pyFromisoformat (s : String) : Except PyError PyDateTime :=
  match fromisoChars s.data with
  | some d => Except.ok d
  | none => Except.error PyError.valueError

/-- Lexicographic `≤` on equal-length lists of naturals, as Python compares
datetime field tuples. -/
def natListLexLe : List Nat → List Nat → Bool
  | [], _ => true
  | _ :: _, [] => false
  | a :: as, b :: bs => if a < b then true else if b < a then false else natListLexLe as bs

/-- The field tuple Python uses when comparing naive datetimes. -/
def PyDateTime.naiveFields (d : PyDateTime) : List Nat :=
  [d.year, d.month, d.day, d.hour, d.minute, d.second, d.microsecond]

/-- Python `<=` on two naive datetimes (field-tuple lexicographic order). -/
def pyNaiveLe (a b : PyDateTime) : Bool :=
  natListLexLe a.naiveFields b.naiveFields

/-- Model of the normalization in `upsert_health_dump` (lines 24-33):
`d.replace(tzinfo=None) if d.tzinfo else d`. -/
def normalizeToNaive (d : PyDateTime) : PyDateTime :=
  if d.tzOffsetMinutes.isSome then { d with tzOffsetMinutes := none } else d

/-- Whether the first list is a character-level prefix of the second. -/
def charsHaveLead : List Char → List Char → Bool
  | [], _ => true
  | _ :: _, [] => false
  | a :: as, b :: bs => a == b && charsHaveLead as bs

/-- Fuel-indexed body of `pyStrReplace`: replace non-overlapping occurrences
of `old` left to right; each step consumes at least one character, so fuel
equal to the input length suffices. -/
def pyReplaceChars (old new : List Char) : Nat → List Char → List Char
  | 0, cs => cs
  | fuel + 1, cs =>
    if !old.isEmpty && charsHaveLead old cs then
      new ++ pyReplaceChars old new fuel (cs.drop old.length)
    else
      match cs with
      | [] => []
      | c :: rest => c :: pyReplaceChars old new fuel rest

/-- Model of Python `s.replace(old, new)` for a nonempty `old` (the
repository only calls it as `.replace("Z", "+00:00")`). -/
def pyStrReplace (s old new : String) : String :=
  String.mk (pyReplaceChars old.data new.data s.data.length s.data)

/-- Model of a Python value as it appears in the dict payloads of this
repository: `None`, an int, a float (modelled as `Rat`), a string, or a
`datetime` object. -/
inductive PyValue where
  | pyNone
  | int (n : Int)
  | float (q : Rat)
  | str (s : String)
  | dt (d : PyDateTime)
deriving DecidableEq, Repr

/-- Model of a Python dict with string keys (association list; keys are
unique in every dict the code builds, and lookup takes the first match). -/
abbrev PyDict := List (String × PyValue)

/-- Model of `data.get(k)`: `None` when the key is absent. -/
def dictGet (data : PyDict) (k : String) : PyValue :=
  match data.lookup k with
  | some v => v
  | none => PyValue.pyNone

/-- Model of `data[k]`: raises `KeyError(k)` when the key is absent. -/
def dictGetItem (data : PyDict) (k : String) : Except PyError PyValue :=
  match data.lookup k with
  | some v => Except.ok v
  | none => Except.error (PyError.keyError k)

/-- The `HealthDump` dataclass of `src/datamodels.py` (lines 5-12). Its
declared fields are exactly `date`, `steps`, `kcals`, `km`,
`flights_climbed`, `recorded_at` — the dataclass declares no `weight`
field. -/
structure HealthDump where
  date : String
  steps : Option Int
  kcals : Option Rat
  km : Option Rat
  flights_climbed : Option Int
  recorded_at : PyDateTime
deriving DecidableEq, Repr

/-- Model of the Python attribute access `health_dump.weight`
(`src/ios_health_dump.py` lines 38, 45, 64). The `HealthDump` dataclass
declares no `weight` field, so on any instance built by its generated
constructor — the only way the repository creates instances — the access
raises `AttributeError`. -/
def pyGetattrWeight (_hd : HealthDump) : Except PyError (Option Rat) :=
  Except.error PyError.attributeError

/-- Embed an optional int field value into a `PyValue`. -/
def optIntVal : Option Int → PyValue
  | none => PyValue.pyNone
  | some n => PyValue.int n

/-- Embed an optional float field value into a `PyValue`. -/
def optRatVal : Option Rat → PyValue
  | none => PyValue.pyNone
  | some q => PyValue.float q

/-- Read an optional-int dataclass field from a `PyValue`; `none` when the
value lies outside the field's declared type `int | None` (the dataclass
itself performs no check, so such a value is unrepresentable in the typed
model). -/
def pyToOptInt : PyValue → Option (Option Int)
  | PyValue.pyNone => some none
  | PyValue.int n => some (some n)
  | _ => none

/-- Read an optional-float dataclass field from a `PyValue`; `none` outside
`float | None`. -/
def pyToOptRat : PyValue → Option (Option Rat)
  | PyValue.pyNone => some none
  | PyValue.float q => some (some q)
  | _ => none

/-- Read a string dataclass field from a `PyValue`. -/
def pyToStr : PyValue → Option String
  | PyValue.str s => some s
  | _ => none

/-- `HealthDump.to_dict` (`src/datamodels.py` lines 14-22): the emitted keys
are exactly `date`, `steps`, `kcals`, `km`, `flights_climbed`,
`recorded_at` (no `weight` key), with `recorded_at` rendered by
`isoformat`. -/
def HealthDump.to_dict (hd : HealthDump) : PyDict :=
  [("date", PyValue.str hd.date),
   ("steps", optIntVal hd.steps),
   ("kcals", optRatVal hd.kcals),
   ("km", optRatVal hd.km),
   ("flights_climbed", optIntVal hd.flights_climbed),
   ("recorded_at", PyValue.str hd.recorded_at.isoformat)]

/-- `HealthDump.from_dict` (`src/datamodels.py` lines 24-39). `now` is the
value `datetime.now()` would return, passed explicitly. The `recorded_at`
entry is handled first (string → `fromisoformat` after replacing `Z` with
`+00:00`, which can raise `ValueError`; `None` or absent → `now`); then the
constructor arguments are evaluated in order `date`, `steps`, `kcals`, `km`
by required key access (each can raise `KeyError`) and `flights_climbed` by
`get`. Python would accept argument values outside the dataclass's declared
field types without error; such ill-typed records are unrepresentable in
the typed model and yield the distinguished `typeUnrepresentable` error.
The `recorded_at` handling (lines 26-30) is split out as
`fromDictRecordedAt`. -/
def fromDictRecordedAt (now : PyDateTime) (data : PyDict) : Except PyError PyValue :=
  match dictGet data "recorded_at" with
  | PyValue.str s =>
    match pyFromisoformat (pyStrReplace s "Z" "+00:00") with
    | Except.ok d => Except.ok (PyValue.dt d)
    | Except.error e => Except.error e
  | PyValue.pyNone => Except.ok (PyValue.dt now)
  | v => Except.ok v

/-- Constructor-argument evaluation of `HealthDump.from_dict` after the
`recorded_at` handling (`fromDictRecordedAt`). -/
def HealthDump.from_dict (now : PyDateTime) (data : PyDict) : Except PyError HealthDump := do
  let ra ← fromDictRecordedAt now data
  let dateV ← dictGetItem data "date"
  let stepsV ← dictGetItem data "steps"
  let kcalsV ← dictGetItem data "kcals"
  let kmV ← dictGetItem data "km"
  let fcV := dictGet data "flights_climbed"
  match pyToStr dateV, pyToOptInt stepsV, pyToOptRat kcalsV, pyToOptRat kmV,
        pyToOptInt fcV, ra with
  | some d, some st, some kc, some kmq, some fc, PyValue.dt r =>
    Except.ok (HealthDump.mk d st kc kmq fc r)
  | _, _, _, _, _, _ => Except.error PyError.typeUnrepresentable

/-- One row of the `health_dumps` table (`src/db.py` lines 59-71):
`date TEXT PRIMARY KEY`, optional numeric metric columns, optional
`weight REAL`, and `recorded_at TEXT NOT NULL` stored as a string. -/
structure HealthRow where
  date : String
  steps : Option Int
  kcals : Option Rat
  km : Option Rat
  flights_climbed : Option Int
  weight : Option Rat
  recorded_at : String
deriving DecidableEq, Repr

/-- The table contents: a list of rows (the `date` primary key keeps dates
unique in every state the code can produce). -/
abbrev Store := List HealthRow

/-- Model of `SELECT ... WHERE date = ?` followed by `fetchone()`. -/
def fetchRowByDate (db : Store) (d : String) : Option HealthRow :=
  db.find? (fun r => r.date == d)

/-- Model of `SELECT COUNT(*)`. -/
def rowCount (db : Store) : Int :=
  (db.length : Int)

/-- Model of `UPDATE health_dumps SET weight = ? WHERE date = ?`. -/
def setWeightWhereDate (db : Store) (d : String) (w : Option Rat) : Store :=
  db.map (fun r => if r.date == d then { r with weight := w } else r)

/-- Model of `INSERT OR REPLACE` keyed on the `date` primary key: the
conflicting row (if any) is deleted and the new row inserted. -/
def insertOrReplaceRow (db : Store) (row : HealthRow) : Store :=
  db.filter (fun r => !(r.date == row.date)) ++ [row]

/-- Outcome of running one `db_transaction` block: the value returned or
the exception re-raised, the database state after commit or rollback, and
the number of committed transactions. -/
structure TxOutcome (σ α : Type) where
  result : Except PyError α
  state : σ
  commits : Nat
deriving Repr

/-- `db_transaction` (`src/db.py` lines 24-43): run the body; on success
commit once, on an exception roll every mutation back and re-raise. -/
def db_transaction {σ α : Type} (body : σ → Except PyError (σ × α)) (s : σ) :
    TxOutcome σ α :=
  match body s with
  | Except.ok (s2, a) => TxOutcome.mk (Except.ok a) s2 1
  | Except.error e => TxOutcome.mk (Except.error e) s 0

/-- Body of `upsert_health_dump` (`src/ios_health_dump.py` lines 13-71),
inside the transaction: fetch the existing row for the date; if one exists,
parse its stored `recorded_at`, normalize both datetimes to naive, and when
the candidate is older or equal, merge the candidate's `weight` into the row
when the row's weight is null (then return `COUNT(*)`); otherwise fall
through to `INSERT OR REPLACE` with the candidate's fields and return
`COUNT(*)`. Every path evaluates the attribute access `health_dump.weight`
(`pyGetattrWeight`). -/
def upsertBody (hd : HealthDump) (db : Store) : Except PyError (Store × Int) := do
  match fetchRowByDate db hd.date with
  | some row => do
    let existing_recorded_at ← pyFromisoformat row.recorded_at
    let health_dump_time := normalizeToNaive hd.recorded_at
    let existing_time := normalizeToNaive existing_recorded_at
    if pyNaiveLe health_dump_time existing_time then do
      let w ← pyGetattrWeight hd
      let db2 := if w.isSome && row.weight.isNone then setWeightWhereDate db hd.date w else db
      Except.ok (db2, rowCount db2)
    else do
      let w ← pyGetattrWeight hd
      let iso := hd.recorded_at.isoformat
      let db2 := insertOrReplaceRow db
        (HealthRow.mk hd.date hd.steps hd.kcals hd.km hd.flights_climbed w iso)
      Except.ok (db2, rowCount db2)
  | none => do
    let w ← pyGetattrWeight hd
    let iso := hd.recorded_at.isoformat
    let db2 := insertOrReplaceRow db
      (HealthRow.mk hd.date hd.steps hd.kcals hd.km hd.flights_climbed w iso)
    Except.ok (db2, rowCount db2)

/-- `upsert_health_dump` as observed by its caller: the body run inside one
`db_transaction`. -/
def upsert_health_dump (hd : HealthDump) (db : Store) : TxOutcome Store Int :=
  db_transaction (upsertBody hd) db

/-- Schema-level state of the database file for `init_health_dumps_table`:
`none` when the `health_dumps` table does not exist, otherwise its column
list (in declaration order, as `PRAGMA table_info` reports it) and rows. -/
structure TableState where
  columns : List String
  rows : List HealthRow
deriving DecidableEq, Repr

/-- The database file state: the `health_dumps` table, if it exists. -/
abbrev DbState := Option TableState

/-- Column list of the `CREATE TABLE` statement (`src/db.py` lines 59-71). -/
def healthDumpColumns : List String :=
  ["date", "steps", "kcals", "km", "flights_climbed", "weight", "recorded_at"]

/-- Body of `init_health_dumps_table` (`src/db.py` lines 46-72), inside the
transaction: if the table exists, add the nullable `weight` column
(`ALTER TABLE ... ADD COLUMN`, which appends the column and leaves existing
rows untouched) only when it is missing, then return; otherwise create the
table with the full schema. -/
def initBody (db : DbState) : Except PyError (DbState × Unit) :=
  match db with
  | some t =>
    if "weight" ∈ t.columns then Except.ok (some t, ())
    else Except.ok (some (TableState.mk (t.columns ++ ["weight"]) t.rows), ())
  | none => Except.ok (some (TableState.mk healthDumpColumns []), ())

/-- `init_health_dumps_table` as observed by its caller. -/
def init_health_dumps_table (db : DbState) : TxOutcome DbState Unit :=
  db_transaction initBody db

/-- Python truthiness of a string (`if date_start:`): true iff nonempty. -/
def strTruthy (s : String) : Bool :=
  !(s == "")

/-- The WHERE clause built in `get_all_health_data` (lines 90-101): a
`date >= ?` clause is added only when `date_start` is supplied and truthy
(nonempty), and `date <= ?` only when `date_end` is supplied and truthy;
string comparison is lexicographic, as SQLite compares TEXT. -/
def rowInBounds (date_start date_end : Option String) (r : HealthRow) : Bool :=
  (match date_start with
   | some s => if strTruthy s then decide (s ≤ r.date) else true
   | none => true)
  &&
  (match date_end with
   | some e => if strTruthy e then decide (r.date ≤ e) else true
   | none => true)

/-- The `ORDER BY date DESC` relation: the later row's date is at most the
earlier row's date. -/
def dateDesc (a b : HealthRow) : Prop :=
  b.date ≤ a.date

instance : DecidableRel dateDesc :=
  fun a b => inferInstanceAs (Decidable (b.date ≤ a.date))

instance : IsTotal HealthRow dateDesc :=
  ⟨fun a b => (le_total b.date a.date).imp id id⟩

instance : IsTrans HealthRow dateDesc :=
  ⟨fun _ _ _ hab hbc => le_trans hbc hab⟩

/-- The SELECT of `get_all_health_data` (lines 103-111): the rows matching
the WHERE clause, ordered by `date` descending. -/
def queryHealthRows (date_start date_end : Option String) (db : Store) : List HealthRow :=
  List.insertionSort dateDesc (db.filter (rowInBounds date_start date_end))

/-- The dict built per row in `get_all_health_data` (lines 113-124),
carrying the raw `recorded_at` string from the table. -/
def rowToDict (r : HealthRow) : PyDict :=
  [("date", PyValue.str r.date),
   ("steps", optIntVal r.steps),
   ("kcals", optRatVal r.kcals),
   ("km", optRatVal r.km),
   ("flights_climbed", optIntVal r.flights_climbed),
   ("weight", optRatVal r.weight),
   ("recorded_at", PyValue.str r.recorded_at)]

/-- `get_all_health_data` (`src/ios_health_dump.py` lines 74-129): the
queried rows as plain dicts; the `fill_missing_dates` branch is
`if fill_missing_dates: pass`, a no-op. -/
def get_all_health_data (fill_missing_dates : Bool)
    (date_start date_end : Option String) (db : Store) : List PyDict :=
  let data := (queryHealthRows date_start date_end db).map rowToDict
  if fill_missing_dates then data else data

/-- Folding a sequence of `upsert_health_dump` calls over the store,
keeping the post-transaction state of each call. -/
def applyUpserts (dumps : List HealthDump) (db : Store) : Store :=
  dumps.foldl (fun s hd => (upsert_health_dump hd s).state) db

/-- Post-transaction database state of one `init_health_dumps_table` call. -/
def postInitDb (d : DbState) : DbState :=
  (init_health_dumps_table d).state

/-- The rows held by a database state (none when the table does not exist). -/
def dbRows : DbState → List HealthRow
  | none => []
  | some t => t.rows

/-- A fixed stand-in for the value `datetime.now()` would return. -/
def nowStub : PyDateTime :=
  PyDateTime.mk 2026 2 1 0 0 0 0 none

/-- Stored row for 2026-01-05 recorded at 10:00 (weight null). -/
def rowJan5Morning : HealthRow :=
  HealthRow.mk "2026-01-05" (some 5000) (some 250) (some 4) (some 25) none
    "2026-01-05T10:00:00"

/-- Stored row for 2026-01-05 recorded at 14:30 (weight null). -/
def rowJan5Afternoon : HealthRow :=
  HealthRow.mk "2026-01-05" (some 10000) (some 500) (some 8) (some 50) none
    "2026-01-05T14:30:00"

/-- Candidate record for 2026-01-05 recorded at 14:30. -/
def dumpJan5Afternoon : HealthDump :=
  HealthDump.mk "2026-01-05" (some 10000) (some 500) (some 8) (some 50)
    (PyDateTime.mk 2026 1 5 14 30 0 0 none)

/-- Candidate record for 2026-01-05 recorded at 10:00 (stale against
`rowJan5Afternoon`). -/
def dumpJan5Morning : HealthDump :=
  HealthDump.mk "2026-01-05" (some 5000) (some 250) (some 4) (some 25)
    (PyDateTime.mk 2026 1 5 10 0 0 0 none)

/-- Candidate record for 2026-01-06. -/
def dumpJan6 : HealthDump :=
  HealthDump.mk "2026-01-06" (some 8000) (some 400) (some 6) (some 30)
    (PyDateTime.mk 2026 1 6 14 30 0 0 none)

/-- Stored row for 2026-01-03. -/
def rowJan3 : HealthRow :=
  HealthRow.mk "2026-01-03" (some 1000) (some 100) (some 1) (some 1) none
    "2026-01-03T08:00:00"

/-- Every run of the upsert body raises some exception: each of its three
paths evaluates the attribute access `health_dump.weight`, and the path with
an existing row may already fail parsing the stored `recorded_at`. -/
lemma upsertBody_isError (hd : HealthDump) (db : Store) :
    ∃ e, upsertBody hd db = Except.error e := by
  unfold upsertBody
  cases h : fetchRowByDate db hd.date with
  | none => exact ⟨PyError.attributeError, rfl⟩
  | some row =>
    cases hp : pyFromisoformat row.recorded_at with
    | error e =>
      exact ⟨e, by simp [hp, Except.instMonad, Except.bind]⟩
    | ok t =>
      by_cases hle :
          pyNaiveLe (normalizeToNaive hd.recorded_at) (normalizeToNaive t) = true
      · exact ⟨PyError.attributeError,
          by simp [hp, hle, pyGetattrWeight, Except.instMonad, Except.bind]⟩
      · exact ⟨PyError.attributeError,
          by simp [hp, hle, pyGetattrWeight, Except.instMonad, Except.bind]⟩

/-- Every `upsert_health_dump` call rolls back: the post-call store equals
the pre-call store and no transaction commits. -/
lemma upsert_rolls_back (hd : HealthDump) (db : Store) :
    (upsert_health_dump hd db).state = db ∧ (upsert_health_dump hd db).commits = 0 := by
  obtain ⟨e, he⟩ := upsertBody_isError hd db
  simp [upsert_health_dump, db_transaction, he]

/-- Applying any sequence of upsert calls leaves the store unchanged. -/
lemma applyUpserts_fixed (dumps : List HealthDump) (db : Store) :
    applyUpserts dumps db = db := by
  induction dumps generalizing db with
  | nil => rfl
  | cons hd tl ih =>
    show applyUpserts tl (upsert_health_dump hd db).state = db
    rw [(upsert_rolls_back hd db).1]
    exact ih db

/-- When the dict's `recorded_at` entry, if a string, parses, the
`recorded_at` handling of `from_dict` succeeds. -/
lemma fromDictRecordedAt_ok (now : PyDateTime) (data : PyDict)
    (h : ∀ s, dictGet data "recorded_at" = PyValue.str s →
        ∃ t, pyFromisoformat (pyStrReplace s "Z" "+00:00") = Except.ok t) :
    ∃ rv, fromDictRecordedAt now data = Except.ok rv := by
  unfold fromDictRecordedAt
  cases hra : dictGet data "recorded_at" with
  | pyNone => exact ⟨PyValue.dt now, rfl⟩
  | int n => exact ⟨PyValue.int n, rfl⟩
  | float q => exact ⟨PyValue.float q, rfl⟩
  | dt d => exact ⟨PyValue.dt d, rfl⟩
  | str s =>
    obtain ⟨t, ht⟩ := h s hra
    exact ⟨PyValue.dt t, by simp [ht]⟩

/-- C3: on the insert path (no row for the date) and on the path that
reaches the stale-merge check (a row whose stored `recorded_at` parses),
`upsert_health_dump` evaluates the attribute access `health_dump.weight`,
which the `HealthDump` dataclass does not define; the call therefore raises
`AttributeError`, rolls back (post-state equals pre-state, zero commits)
and persists nothing. -/
theorem upsert_weight_attribute_access_raises (hd : HealthDump) (db : Store) :
    (fetchRowByDate db hd.date = none →
      upsert_health_dump hd db
        = TxOutcome.mk (Except.error PyError.attributeError) db 0)
    ∧ (∀ row t, fetchRowByDate db hd.date = some row →
        pyFromisoformat row.recorded_at = Except.ok t →
        upsert_health_dump hd db
          = TxOutcome.mk (Except.error PyError.attributeError) db 0) := by
  constructor
  · intro h
    have hb : upsertBody hd db = Except.error PyError.attributeError := by
      unfold upsertBody
      simp [h, pyGetattrWeight, Except.instMonad, Except.bind]
    simp [upsert_health_dump, db_transaction, hb]
  · intro row t h hp
    have hb : upsertBody hd db = Except.error PyError.attributeError := by
      unfold upsertBody
      by_cases hle :
          pyNaiveLe (normalizeToNaive hd.recorded_at) (normalizeToNaive t) = true
      · simp [h, hp, hle, pyGetattrWeight, Except.instMonad, Except.bind]
      · simp [h, hp, hle, pyGetattrWeight, Except.instMonad, Except.bind]
    simp [upsert_health_dump, db_transaction, hb]

/-- C3 witness: both hypotheses discharged at concrete inputs — an empty
store (insert path) and a store whose row for the date has a parseable
`recorded_at` (stale-merge path). -/
theorem upsert_weight_attribute_access_raises_witness :
    fetchRowByDate ([] : Store) dumpJan5Afternoon.date = none
    ∧ upsert_health_dump dumpJan5Afternoon []
        = TxOutcome.mk (Except.error PyError.attributeError) [] 0
    ∧ upsert_health_dump dumpJan5Morning [rowJan5Afternoon]
        = TxOutcome.mk (Except.error PyError.attributeError) [rowJan5Afternoon] 0 :=
  ⟨rfl,
   (upsert_weight_attribute_access_raises dumpJan5Afternoon []).1 rfl,
   (upsert_weight_attribute_access_raises dumpJan5Morning [rowJan5Afternoon]).2
     rowJan5Afternoon (PyDateTime.mk 2026 1 5 14 30 0 0 none) rfl rfl⟩

/-- C1: a strictly newer write does not replace the stored row. The stored
row for 2026-01-05 was recorded at 10:00 and the candidate at 14:30 (so the
candidate wins the recency comparison), yet the call raises
`AttributeError` at the `health_dump.weight` read in the INSERT OR REPLACE
values and rolls back, leaving the old row in place. -/
theorem upsert_newer_write_raises_instead_of_replacing :
    pyFromisoformat rowJan5Morning.recorded_at
      = Except.ok (PyDateTime.mk 2026 1 5 10 0 0 0 none)
    ∧ pyNaiveLe (normalizeToNaive dumpJan5Afternoon.recorded_at)
        (normalizeToNaive (PyDateTime.mk 2026 1 5 10 0 0 0 none)) = false
    ∧ upsert_health_dump dumpJan5Afternoon [rowJan5Morning]
        = TxOutcome.mk (Except.error PyError.attributeError) [rowJan5Morning] 0 :=
  ⟨rfl, rfl, rfl⟩

/-- C2: a stale write does not return the row count and cannot merge
weight. The stored row for 2026-01-05 was recorded at 14:30 with null
weight and the candidate at 10:00 (stale), yet the call raises
`AttributeError` at the `health_dump.weight` read in the stale-merge check
and rolls back (the row stays unchanged only because of the rollback). -/
theorem upsert_stale_write_raises_instead_of_merging :
    pyFromisoformat rowJan5Afternoon.recorded_at
      = Except.ok (PyDateTime.mk 2026 1 5 14 30 0 0 none)
    ∧ pyNaiveLe (normalizeToNaive dumpJan5Morning.recorded_at)
        (normalizeToNaive (PyDateTime.mk 2026 1 5 14 30 0 0 none)) = true
    ∧ rowJan5Afternoon.weight = none
    ∧ upsert_health_dump dumpJan5Morning [rowJan5Afternoon]
        = TxOutcome.mk (Except.error PyError.attributeError) [rowJan5Afternoon] 0 :=
  ⟨rfl, rfl, rfl, rfl⟩

/-- C5: the first upsert against an empty store raises `AttributeError`
instead of returning the total row count 1. -/
theorem first_upsert_raises_instead_of_returning_count :
    rowCount ([] : Store) = 0
    ∧ upsert_health_dump dumpJan6 []
        = TxOutcome.mk (Except.error PyError.attributeError) [] 0 :=
  ⟨rfl, rfl⟩

/-- C4: `to_dict` emits no `weight` key (the dataclass has no such field),
so the claimed weight round-trip is impossible; the fields the dataclass
does define (date, steps, kcals, km, flights_climbed, recorded_at) do
round-trip, with `recorded_at` rendered as an ISO-8601 string. -/
theorem to_dict_omits_weight_roundtrip :
    (HealthDump.to_dict dumpJan5Afternoon).lookup "weight" = none
    ∧ (HealthDump.to_dict dumpJan5Afternoon).lookup "recorded_at"
        = some (PyValue.str "2026-01-05T14:30:00")
    ∧ HealthDump.from_dict nowStub (HealthDump.to_dict dumpJan5Afternoon)
        = Except.ok dumpJan5Afternoon :=
  ⟨rfl, rfl, rfl⟩

/-- C9: the stored `recorded_at` of every date is unchanged by every upsert
call (and hence monotonically non-decreasing across any sequence of calls):
no write is ever accepted as a full replacement, because every call raises
at the missing `weight` attribute and rolls back. -/
theorem upsert_never_decreases_recorded_at (dumps : List HealthDump) (db : Store) :
    applyUpserts dumps db = db
    ∧ ∀ (hd : HealthDump) (d : String),
        (fetchRowByDate (upsert_health_dump hd db).state d).map
            (fun r => r.recorded_at)
          = (fetchRowByDate db d).map (fun r => r.recorded_at) := by
  refine ⟨applyUpserts_fixed dumps db, ?_⟩
  intro hd d
  rw [(upsert_rolls_back hd db).1]

/-- C7: `db_transaction` commits exactly once on success; on an exception
inside the body it re-raises the same error with the pre-call state intact
(full rollback) and zero commits — in particular for `upsert_health_dump`;
`init_health_dumps_table` always succeeds with exactly one commit. -/
theorem transaction_commit_rollback_semantics :
    (∀ (body : Store → Except PyError (Store × Int)) (s s2 : Store) (a : Int),
        body s = Except.ok (s2, a) →
        db_transaction body s = TxOutcome.mk (Except.ok a) s2 1)
    ∧ (∀ (body : Store → Except PyError (Store × Int)) (s : Store) (e : PyError),
        body s = Except.error e →
        db_transaction body s = TxOutcome.mk (Except.error e) s 0)
    ∧ (∀ (hd : HealthDump) (db : Store) (e : PyError),
        upsertBody hd db = Except.error e →
        upsert_health_dump hd db = TxOutcome.mk (Except.error e) db 0)
    ∧ (∀ d : DbState,
        (init_health_dumps_table d).result = Except.ok ()
        ∧ (init_health_dumps_table d).commits = 1) := by
  refine ⟨?_, ?_, ?_, ?_⟩
  · intro body s s2 a h
    simp [db_transaction, h]
  · intro body s e h
    simp [db_transaction, h]
  · intro hd db e h
    simp [upsert_health_dump, db_transaction, h]
  · intro d
    cases d with
    | none => exact ⟨rfl, rfl⟩
    | some t =>
      by_cases hw : "weight" ∈ t.columns
      · constructor <;> simp [init_health_dumps_table, db_transaction, initBody, hw]
      · constructor <;> simp [init_health_dumps_table, db_transaction, initBody, hw]

/-- C7 witness: a committing body, a failing body rolled back with its
error re-raised, and a schema-init call committing once. -/
theorem transaction_commit_rollback_semantics_witness :
    db_transaction (fun s : Store => Except.ok (s, (3 : Int))) []
      = TxOutcome.mk (Except.ok 3) [] 1
    ∧ db_transaction
        (fun _ : Store => (Except.error PyError.valueError : Except PyError (Store × Int)))
        [rowJan3]
      = TxOutcome.mk (Except.error PyError.valueError) [rowJan3] 0
    ∧ (init_health_dumps_table none).commits = 1 :=
  ⟨transaction_commit_rollback_semantics.1 _ [] [] 3 rfl,
   transaction_commit_rollback_semantics.2.1 _ [rowJan3] PyError.valueError rfl,
   (transaction_commit_rollback_semantics.2.2.2 none).2⟩

/-- C8: schema init is idempotent (a second run changes nothing), preserves
all stored rows, always leaves a schema containing the `weight` column,
is a no-op when the column already exists, and when the table exists
without `weight` it only appends that column, leaving the rows intact. -/
theorem init_table_idempotent_and_preserves_rows (db : DbState) :
    postInitDb (postInitDb db) = postInitDb db
    ∧ dbRows (postInitDb db) = dbRows db
    ∧ (∀ t2, postInitDb db = some t2 → "weight" ∈ t2.columns)
    ∧ (∀ t, db = some t → "weight" ∈ t.columns → postInitDb db = db)
    ∧ (∀ t, db = some t → "weight" ∉ t.columns →
        postInitDb db = some (TableState.mk (t.columns ++ ["weight"]) t.rows)) := by
  cases db with
  | none =>
    refine ⟨rfl, rfl, ?_, ?_, ?_⟩
    · intro t2 h
      have hpost : postInitDb none = some (TableState.mk healthDumpColumns []) := rfl
      rw [hpost] at h
      cases Option.some.inj h
      decide
    · intro t ht _
      exact nomatch ht
    · intro t ht _
      exact nomatch ht
  | some t =>
    by_cases hw : "weight" ∈ t.columns
    · have hpost : postInitDb (some t) = some t := by
        simp [postInitDb, init_health_dumps_table, db_transaction, initBody, hw]
      refine ⟨by rw [hpost, hpost], by rw [hpost], ?_, ?_, ?_⟩
      · intro t2 h
        rw [hpost] at h
        cases Option.some.inj h
        exact hw
      · intro t2 ht _
        rw [hpost]
      · intro t2 ht hw2
        cases Option.some.inj ht
        exact absurd hw hw2
    · have hpost : postInitDb (some t)
          = some (TableState.mk (t.columns ++ ["weight"]) t.rows) := by
        simp [postInitDb, init_health_dumps_table, db_transaction, initBody, hw]
      have hw2 : "weight" ∈ t.columns ++ ["weight"] :=
        List.mem_append_right _ (by decide)
      have hpost2 : postInitDb (some (TableState.mk (t.columns ++ ["weight"]) t.rows))
          = some (TableState.mk (t.columns ++ ["weight"]) t.rows) := by
        simp [postInitDb, init_health_dumps_table, db_transaction, initBody, hw2]
      refine ⟨by rw [hpost, hpost2], by rw [hpost]; rfl, ?_, ?_, ?_⟩
      · intro t2 h
        rw [hpost] at h
        cases Option.some.inj h
        exact hw2
      · intro t2 ht hmem
        cases Option.some.inj ht
        exact absurd hmem hw
      · intro t2 ht _
        cases Option.some.inj ht
        exact hpost

/-- C8 witness: a table already carrying `weight` is untouched; a table
without it gains exactly the appended `weight` column with rows intact. -/
theorem init_table_idempotent_and_preserves_rows_witness :
    postInitDb (some (TableState.mk healthDumpColumns [rowJan3]))
      = some (TableState.mk healthDumpColumns [rowJan3])
    ∧ postInitDb (some (TableState.mk ["date", "recorded_at"] [rowJan3]))
      = some (TableState.mk (["date", "recorded_at"] ++ ["weight"]) [rowJan3]) :=
  ⟨(init_table_idempotent_and_preserves_rows
      (some (TableState.mk healthDumpColumns [rowJan3]))).2.2.2.1
      (TableState.mk healthDumpColumns [rowJan3]) rfl (by decide),
   (init_table_idempotent_and_preserves_rows
      (some (TableState.mk ["date", "recorded_at"] [rowJan3]))).2.2.2.2
      (TableState.mk ["date", "recorded_at"] [rowJan3]) rfl (by decide)⟩

/-- C6 counterexample: a supplied `date_end` bound that is the empty string
is dropped by the Python truthiness test `if date_end:` rather than
applied, so the query returns a record whose date does not satisfy the
bound: with the store holding the 2026-01-03 row and `date_end = ""`, the
row is returned although its date is not at most `""`. -/
theorem query_empty_string_bound_counterexample :
    get_all_health_data true none (some "") [rowJan3] = [rowToDict rowJan3]
    ∧ ¬(rowJan3.date ≤ ("" : String)) := by
  refine ⟨rfl, ?_⟩
  show ¬(("2026-01-03" : String) ≤ "")
  simp [String.le_iff_toList_le]
  decide

/-- C6 amended: for every store and every choice of optional bounds, the
query returns exactly the stored records satisfying the WHERE clause —
each bound applied only when it is supplied AND nonempty (Python
truthiness) — ordered by date descending, as plain field mappings carrying
the raw `recorded_at` string. -/
theorem query_filters_and_sorts_descending
    (date_start date_end : Option String) (db : Store) :
    List.Perm (queryHealthRows date_start date_end db)
      (db.filter (rowInBounds date_start date_end))
    ∧ List.Pairwise dateDesc (queryHealthRows date_start date_end db)
    ∧ get_all_health_data true date_start date_end db
        = (queryHealthRows date_start date_end db).map rowToDict
    ∧ ∀ r : HealthRow,
        (rowToDict r).lookup "recorded_at" = some (PyValue.str r.recorded_at) :=
  ⟨List.perm_insertionSort dateDesc _,
   List.sorted_insertionSort dateDesc _,
   rfl,
   fun _ => rfl⟩

/-- C10 counterexample: a mapping that contains `date` but lacks `steps`
does not raise a missing-key error when its `recorded_at` value is a
malformed string — the `recorded_at` handling runs first and raises
`ValueError` before any key access. -/
theorem from_dict_missing_steps_valueerror_counterexample :
    (([("date", PyValue.str "2026-01-05"),
       ("recorded_at", PyValue.str "garbage")] : PyDict).lookup "steps" = none)
    ∧ HealthDump.from_dict nowStub
        [("date", PyValue.str "2026-01-05"), ("recorded_at", PyValue.str "garbage")]
      = Except.error PyError.valueError
    ∧ (Except.error PyError.valueError : Except PyError HealthDump)
      ≠ Except.error (PyError.keyError "steps") :=
  ⟨rfl, rfl, by simp⟩

/-- C10 amended: provided the `recorded_at` entry, when it is a string,
parses (so the handling that precedes key access does not raise first),
`from_dict` raises `KeyError` for the first missing key among `date`,
`steps`, `kcals`, `km` — while a mapping with only those four keys
reconstructs fine, `flights_climbed` defaulting to null and `recorded_at`
to the current time. -/
theorem from_dict_missing_required_keys_raise_keyerror
    (now : PyDateTime) (data : PyDict)
    (hra : ∀ s, dictGet data "recorded_at" = PyValue.str s →
        ∃ t, pyFromisoformat (pyStrReplace s "Z" "+00:00") = Except.ok t) :
    (data.lookup "date" = none →
       HealthDump.from_dict now data = Except.error (PyError.keyError "date"))
    ∧ (∀ v, data.lookup "date" = some v → data.lookup "steps" = none →
         HealthDump.from_dict now data = Except.error (PyError.keyError "steps"))
    ∧ (∀ v w, data.lookup "date" = some v → data.lookup "steps" = some w →
         data.lookup "kcals" = none →
         HealthDump.from_dict now data = Except.error (PyError.keyError "kcals"))
    ∧ (∀ v w x, data.lookup "date" = some v → data.lookup "steps" = some w →
         data.lookup "kcals" = some x → data.lookup "km" = none →
         HealthDump.from_dict now data = Except.error (PyError.keyError "km"))
    ∧ (∀ (d : String) (st : Int) (kc kmq : Rat),
         HealthDump.from_dict now
           [("date", PyValue.str d), ("steps", PyValue.int st),
            ("kcals", PyValue.float kc), ("km", PyValue.float kmq)]
           = Except.ok (HealthDump.mk d (some st) (some kc) (some kmq) none now)) := by
  obtain ⟨rv, hrv⟩ := fromDictRecordedAt_ok now data hra
  refine ⟨?_, ?_, ?_, ?_, ?_⟩
  · intro hdate
    simp [HealthDump.from_dict, hrv, dictGetItem, hdate,
      Except.instMonad, Except.bind]
  · intro v hdate hsteps
    simp [HealthDump.from_dict, hrv, dictGetItem, hdate, hsteps,
      Except.instMonad, Except.bind]
  · intro v w hdate hsteps hkcals
    simp [HealthDump.from_dict, hrv, dictGetItem, hdate, hsteps, hkcals,
      Except.instMonad, Except.bind]
  · intro v w x hdate hsteps hkcals hkm
    simp [HealthDump.from_dict, hrv, dictGetItem, hdate, hsteps, hkcals, hkm,
      Except.instMonad, Except.bind]
  · intro d st kc kmq
    rfl

/-- C10 witness: a mapping with `date` present, `steps` absent, and no
`recorded_at` entry raises `KeyError` on `steps`; the four-key mapping with
variable-free values reconstructs with the defaults. -/
theorem from_dict_missing_required_keys_raise_keyerror_witness :
    HealthDump.from_dict nowStub [("date", PyValue.str "2026-01-05")]
      = Except.error (PyError.keyError "steps")
    ∧ HealthDump.from_dict nowStub
        [("date", PyValue.str "2026-01-05"), ("steps", PyValue.int 10000),
         ("kcals", PyValue.float 500), ("km", PyValue.float 8)]
      = Except.ok (HealthDump.mk "2026-01-05" (some 10000) (some 500) (some 8) none nowStub) :=
  ⟨(from_dict_missing_required_keys_raise_keyerror nowStub
      [("date", PyValue.str "2026-01-05")]
      (fun _ hs => nomatch hs)).2.1 (PyValue.str "2026-01-05") rfl rfl,
   (from_dict_missing_required_keys_raise_keyerror nowStub
      [("date", PyValue.str "2026-01-05")]
      (fun _ hs => nomatch hs)).2.2.2.2 "2026-01-05" 10000 500 8⟩
